import Mathlib

/-!
# DietTrackerPro — shallow embedding of the server access layer

This file embeds the in-memory storage layer (`server/storage.ts`,
class `MemStorage`) and the request handlers that the claims are about
(`server/routes.ts`) into Lean, and proves the claims of the
specification against that embedding.

Modelling conventions:
* A JavaScript `Map<number, T>` is an association list `List (Nat × T)`
  in insertion order: `Map.prototype.set` replaces in place when the key
  is present and appends otherwise, `delete` removes the entry, and
  iteration (`values()`) follows insertion order.  The functions
  `mapGet`, `mapSet`, `mapDelete`, `mapValues` below implement exactly
  these semantics.
* `Date` values (timestamps) are modelled as `Nat` (milliseconds since
  epoch, i.e. `getTime()`); `new Date()` at the moment of a mutation is
  modelled by passing the current time `now : Nat` to the operation.
* `Array.prototype.sort(cmp)` with a comparator of the form
  `(a, b) => key(b) - key(a)` (resp. `key(a) - key(b)`) is a stable sort
  by `key` descending (resp. ascending); it is modelled by
  `List.insertionSort` with the corresponding total transitive relation,
  which is likewise stable, so the two agree on every input.
* `bcrypt.hash` and `bcrypt.compare` are opaque effectful primitives;
  they are modelled as function parameters `hash : String → String` and
  `cmp : String → String → Bool` of the operations that use them.
* `numeric` columns are modelled as `Int`, `text` as `String`,
  `boolean` as `Bool`; nullable columns (no `.notNull()` in
  `shared/schema.ts`) are wrapped in `Option`.
* `toLocaleDateString('tr-TR')` is an opaque pure rendering of a
  timestamp; it is modelled by the uninterpreted-but-executable
  `trDateString`.
-/

/-- `Map.prototype.get`: first (and, with unique keys, only) binding. -/
def mapGet {α : Type} (m : List (Nat × α)) (k : Nat) : Option α :=
  match m with
  | [] => none
  | (k', v) :: rest => if k' = k then some v else mapGet rest k

/-- `Map.prototype.set`: replace in place when present, append otherwise. -/
def mapSet {α : Type} (m : List (Nat × α)) (k : Nat) (v : α) : List (Nat × α) :=
  match m with
  | [] => [(k, v)]
  | (k', v') :: rest => if k' = k then (k, v) :: rest else (k', v') :: mapSet rest k v

/-- `Map.prototype.delete` (the store only deletes keys that occur at most once). -/
def mapDelete {α : Type} (m : List (Nat × α)) (k : Nat) : List (Nat × α) :=
  match m with
  | [] => []
  | (k', v') :: rest => if k' = k then rest else (k', v') :: mapDelete rest k

/-- `Map.prototype.values()` in insertion order. -/
def mapValues {α : Type} (m : List (Nat × α)) : List α :=
  m.map Prod.snd

/-- Opaque model of `new Date(t).toLocaleDateString('tr-TR')`. -/
def trDateString (t : Nat) : String :=
  toString t

/-! ## Entity records (from `shared/schema.ts`) -/

/-- `users` row (`User`). -/
structure User where
  id : Nat
  username : String
  password : String
  email : String
  fullName : String
  profileImage : Option String
  telegramToken : Option String
  telegramChatId : Option String
  createdAt : Nat
deriving Repr, DecidableEq

/-- `InsertUser` (insert schema omits `id` and `createdAt`). -/
structure InsertUser where
  username : String
  password : String
  email : String
  fullName : String
  profileImage : Option String
  telegramToken : Option String
  telegramChatId : Option String
deriving Repr, DecidableEq

/-- `clients` row (`Client`). -/
structure Client where
  id : Nat
  userId : Nat
  fullName : String
  email : String
  phone : String
  birthDate : Option Nat
  gender : String
  profileImage : Option String
  height : Option Int
  startingWeight : Option Int
  targetWeight : Option Int
  activityLevel : Option String
  medicalHistory : Option String
  dietaryRestrictions : Option String
  telegramChatId : Option String
  notes : Option String
  isActive : Bool
  createdAt : Nat
deriving Repr, DecidableEq

/-- `InsertClient` (omits `id` and `createdAt`). -/
structure InsertClient where
  userId : Nat
  fullName : String
  email : String
  phone : String
  birthDate : Option Nat
  gender : String
  profileImage : Option String
  height : Option Int
  startingWeight : Option Int
  targetWeight : Option Int
  activityLevel : Option String
  medicalHistory : Option String
  dietaryRestrictions : Option String
  telegramChatId : Option String
  notes : Option String
  isActive : Bool
deriving Repr, DecidableEq

/-- `measurements` row (`Measurement`); the `date` timestamp is modelled
as a required `Nat` (the code always compares it via `new Date(x.date)`). -/
structure Measurement where
  id : Nat
  clientId : Nat
  date : Nat
  weight : Option Int
  chest : Option Int
  waist : Option Int
  hip : Option Int
  arm : Option Int
  thigh : Option Int
  bodyFatPercentage : Option Int
  notes : Option String
deriving Repr, DecidableEq

/-- `InsertMeasurement` (omits `id` only). -/
structure InsertMeasurement where
  clientId : Nat
  date : Nat
  weight : Option Int
  chest : Option Int
  waist : Option Int
  hip : Option Int
  arm : Option Int
  thigh : Option Int
  bodyFatPercentage : Option Int
  notes : Option String
deriving Repr, DecidableEq

/-- `diet_plans` row (`DietPlan`); the `meals` jsonb payload is opaque
to the server code and modelled as a `String`. -/
structure DietPlan where
  id : Nat
  userId : Nat
  clientId : Nat
  name : String
  description : Option String
  startDate : Nat
  endDate : Option Nat
  dailyCalories : Option Int
  macroProtein : Option Int
  macroCarbs : Option Int
  macroFat : Option Int
  meals : String
  isActive : Bool
  createdAt : Nat
deriving Repr, DecidableEq

/-- `InsertDietPlan` (omits `id` and `createdAt`). -/
structure InsertDietPlan where
  userId : Nat
  clientId : Nat
  name : String
  description : Option String
  startDate : Nat
  endDate : Option Nat
  dailyCalories : Option Int
  macroProtein : Option Int
  macroCarbs : Option Int
  macroFat : Option Int
  meals : String
  isActive : Bool
deriving Repr, DecidableEq

/-- `appointments` row (`Appointment`). -/
structure Appointment where
  id : Nat
  userId : Nat
  clientId : Nat
  date : Nat
  duration : Nat
  type : String
  notes : Option String
  status : String
  createdAt : Nat
deriving Repr, DecidableEq

/-- `InsertAppointment` (omits `id` and `createdAt`). -/
structure InsertAppointment where
  userId : Nat
  clientId : Nat
  date : Nat
  duration : Nat
  type : String
  notes : Option String
  status : String
deriving Repr, DecidableEq

/-- `activities` row (`Activity`); `clientId` is a nullable reference. -/
structure Activity where
  id : Nat
  userId : Nat
  clientId : Option Nat
  type : String
  description : String
  createdAt : Nat
deriving Repr, DecidableEq

/-- `InsertActivity` (omits `id` and `createdAt`). -/
structure InsertActivity where
  userId : Nat
  clientId : Option Nat
  type : String
  description : String
deriving Repr, DecidableEq

/-- `blog_articles` row (`BlogArticle`). -/
structure BlogArticle where
  id : Nat
  title : String
  summary : String
  content : String
  author : String
  imageUrl : Option String
  readTime : Option Nat
  publishedAt : Nat
deriving Repr, DecidableEq

/-- `InsertBlogArticle` (omits `id` and `publishedAt`). -/
structure InsertBlogArticle where
  title : String
  summary : String
  content : String
  author : String
  imageUrl : Option String
  readTime : Option Nat
deriving Repr, DecidableEq

/-! ## The store state (the private fields of `MemStorage`) -/

/-- The mutable state of `MemStorage`: seven insertion-ordered maps and
seven id counters. -/
structure Store where
  users : List (Nat × User)
  clients : List (Nat × Client)
  measurements : List (Nat × Measurement)
  dietPlans : List (Nat × DietPlan)
  appointments : List (Nat × Appointment)
  activities : List (Nat × Activity)
  blogArticles : List (Nat × BlogArticle)
  userIdCounter : Nat
  clientIdCounter : Nat
  measurementIdCounter : Nat
  dietPlanIdCounter : Nat
  appointmentIdCounter : Nat
  activityIdCounter : Nat
  blogArticleIdCounter : Nat
deriving Repr, DecidableEq

/-- The state set up by the `MemStorage` constructor before
`addInitialBlogArticles` runs: empty maps, all counters at 1. -/
def emptyStore : Store :=
  { users := [], clients := [], measurements := [], dietPlans := []
    appointments := [], activities := [], blogArticles := []
    userIdCounter := 1, clientIdCounter := 1, measurementIdCounter := 1
    dietPlanIdCounter := 1, appointmentIdCounter := 1, activityIdCounter := 1
    blogArticleIdCounter := 1 }

/-! ## Partial update payloads (`Partial<InsertX>`)

A field of a `Partial<...>` object is either absent (`none`) or present
with a value (`some v`); for a nullable column the present value is
itself an `Option`.  Object spread `{ ...entity, ...patch }` keeps the
entity's value exactly for the absent fields, which `Option.getD`
expresses. -/

/-- `Partial<InsertClient>`. -/
structure ClientPatch where
  userId : Option Nat := none
  fullName : Option String := none
  email : Option String := none
  phone : Option String := none
  birthDate : Option (Option Nat) := none
  gender : Option String := none
  profileImage : Option (Option String) := none
  height : Option (Option Int) := none
  startingWeight : Option (Option Int) := none
  targetWeight : Option (Option Int) := none
  activityLevel : Option (Option String) := none
  medicalHistory : Option (Option String) := none
  dietaryRestrictions : Option (Option String) := none
  telegramChatId : Option (Option String) := none
  notes : Option (Option String) := none
  isActive : Option Bool := none
deriving Repr, DecidableEq

/-- `{ ...client, ...clientData }` for `clientData : Partial<InsertClient>`;
`id` and `createdAt` are not part of `InsertClient`, so they persist. -/
def applyClientPatch (c : Client) (p : ClientPatch) : Client :=
  { id := c.id
    userId := p.userId.getD c.userId
    fullName := p.fullName.getD c.fullName
    email := p.email.getD c.email
    phone := p.phone.getD c.phone
    birthDate := p.birthDate.getD c.birthDate
    gender := p.gender.getD c.gender
    profileImage := p.profileImage.getD c.profileImage
    height := p.height.getD c.height
    startingWeight := p.startingWeight.getD c.startingWeight
    targetWeight := p.targetWeight.getD c.targetWeight
    activityLevel := p.activityLevel.getD c.activityLevel
    medicalHistory := p.medicalHistory.getD c.medicalHistory
    dietaryRestrictions := p.dietaryRestrictions.getD c.dietaryRestrictions
    telegramChatId := p.telegramChatId.getD c.telegramChatId
    notes := p.notes.getD c.notes
    isActive := p.isActive.getD c.isActive
    createdAt := c.createdAt }

/-- `Partial<InsertMeasurement>`. -/
structure MeasurementPatch where
  clientId : Option Nat := none
  date : Option Nat := none
  weight : Option (Option Int) := none
  chest : Option (Option Int) := none
  waist : Option (Option Int) := none
  hip : Option (Option Int) := none
  arm : Option (Option Int) := none
  thigh : Option (Option Int) := none
  bodyFatPercentage : Option (Option Int) := none
  notes : Option (Option String) := none
deriving Repr, DecidableEq

/-- `{ ...measurement, ...measurementData }`. -/
def applyMeasurementPatch (m : Measurement) (p : MeasurementPatch) : Measurement :=
  { id := m.id
    clientId := p.clientId.getD m.clientId
    date := p.date.getD m.date
    weight := p.weight.getD m.weight
    chest := p.chest.getD m.chest
    waist := p.waist.getD m.waist
    hip := p.hip.getD m.hip
    arm := p.arm.getD m.arm
    thigh := p.thigh.getD m.thigh
    bodyFatPercentage := p.bodyFatPercentage.getD m.bodyFatPercentage
    notes := p.notes.getD m.notes }

/-- `Partial<InsertDietPlan>`. -/
structure DietPlanPatch where
  userId : Option Nat := none
  clientId : Option Nat := none
  name : Option String := none
  description : Option (Option String) := none
  startDate : Option Nat := none
  endDate : Option (Option Nat) := none
  dailyCalories : Option (Option Int) := none
  macroProtein : Option (Option Int) := none
  macroCarbs : Option (Option Int) := none
  macroFat : Option (Option Int) := none
  meals : Option String := none
  isActive : Option Bool := none
deriving Repr, DecidableEq

/-- `{ ...dietPlan, ...dietPlanData }`. -/
def applyDietPlanPatch (d : DietPlan) (p : DietPlanPatch) : DietPlan :=
  { id := d.id
    userId := p.userId.getD d.userId
    clientId := p.clientId.getD d.clientId
    name := p.name.getD d.name
    description := p.description.getD d.description
    startDate := p.startDate.getD d.startDate
    endDate := p.endDate.getD d.endDate
    dailyCalories := p.dailyCalories.getD d.dailyCalories
    macroProtein := p.macroProtein.getD d.macroProtein
    macroCarbs := p.macroCarbs.getD d.macroCarbs
    macroFat := p.macroFat.getD d.macroFat
    meals := p.meals.getD d.meals
    isActive := p.isActive.getD d.isActive
    createdAt := d.createdAt }

/-- `Partial<InsertAppointment>`. -/
structure AppointmentPatch where
  userId : Option Nat := none
  clientId : Option Nat := none
  date : Option Nat := none
  duration : Option Nat := none
  type : Option String := none
  notes : Option (Option String) := none
  status : Option String := none
deriving Repr, DecidableEq

/-- `{ ...appointment, ...appointmentData }`. -/
def applyAppointmentPatch (a : Appointment) (p : AppointmentPatch) : Appointment :=
  { id := a.id
    userId := p.userId.getD a.userId
    clientId := p.clientId.getD a.clientId
    date := p.date.getD a.date
    duration := p.duration.getD a.duration
    type := p.type.getD a.type
    notes := p.notes.getD a.notes
    status := p.status.getD a.status
    createdAt := a.createdAt }

/-! ## Sort relations used by the store's comparators -/

/-- Comparator `(a, b) => new Date(b.date) - new Date(a.date)`: date descending. -/
def Measurement.byDateDesc (a b : Measurement) : Prop := b.date ≤ a.date

instance : DecidableRel Measurement.byDateDesc :=
  fun a b => inferInstanceAs (Decidable (b.date ≤ a.date))

instance : IsTotal Measurement Measurement.byDateDesc :=
  ⟨fun a b => Nat.le_total b.date a.date⟩

instance : IsTrans Measurement Measurement.byDateDesc :=
  ⟨fun _ _ _ hab hbc => Nat.le_trans hbc hab⟩

/-- Comparator `(a, b) => new Date(a.date) - new Date(b.date)`: date ascending. -/
def Appointment.byDateAsc (a b : Appointment) : Prop := a.date ≤ b.date

instance : DecidableRel Appointment.byDateAsc :=
  fun a b => inferInstanceAs (Decidable (a.date ≤ b.date))

instance : IsTotal Appointment Appointment.byDateAsc :=
  ⟨fun a b => Nat.le_total a.date b.date⟩

instance : IsTrans Appointment Appointment.byDateAsc :=
  ⟨fun _ _ _ hab hbc => Nat.le_trans hab hbc⟩

/-- Comparator `(a, b) => new Date(b.createdAt) - new Date(a.createdAt)` on diet plans. -/
def DietPlan.byCreatedAtDesc (a b : DietPlan) : Prop := b.createdAt ≤ a.createdAt

instance : DecidableRel DietPlan.byCreatedAtDesc :=
  fun a b => inferInstanceAs (Decidable (b.createdAt ≤ a.createdAt))

instance : IsTotal DietPlan DietPlan.byCreatedAtDesc :=
  ⟨fun a b => Nat.le_total b.createdAt a.createdAt⟩

instance : IsTrans DietPlan DietPlan.byCreatedAtDesc :=
  ⟨fun _ _ _ hab hbc => Nat.le_trans hbc hab⟩

/-- Comparator `(a, b) => new Date(b.createdAt) - new Date(a.createdAt)` on activities. -/
def Activity.byCreatedAtDesc (a b : Activity) : Prop := b.createdAt ≤ a.createdAt

instance : DecidableRel Activity.byCreatedAtDesc :=
  fun a b => inferInstanceAs (Decidable (b.createdAt ≤ a.createdAt))

instance : IsTotal Activity Activity.byCreatedAtDesc :=
  ⟨fun a b => Nat.le_total b.createdAt a.createdAt⟩

instance : IsTrans Activity Activity.byCreatedAtDesc :=
  ⟨fun _ _ _ hab hbc => Nat.le_trans hbc hab⟩

/-- Comparator `(a, b) => new Date(b.publishedAt) - new Date(a.publishedAt)` on articles. -/
def BlogArticle.byPublishedAtDesc (a b : BlogArticle) : Prop := b.publishedAt ≤ a.publishedAt

instance : DecidableRel BlogArticle.byPublishedAtDesc :=
  fun a b => inferInstanceAs (Decidable (b.publishedAt ≤ a.publishedAt))

instance : IsTotal BlogArticle BlogArticle.byPublishedAtDesc :=
  ⟨fun a b => Nat.le_total b.publishedAt a.publishedAt⟩

instance : IsTrans BlogArticle BlogArticle.byPublishedAtDesc :=
  ⟨fun _ _ _ hab hbc => Nat.le_trans hbc hab⟩

/-! ## `MemStorage` operations (`server/storage.ts`)

Mutating operations take the store and return the method's result paired
with the updated store. -/

/-- `getUser(id)`. -/
def getUser (st : Store) (id : Nat) : Option User :=
  mapGet st.users id

/-- `getUserByUsername(username)`: scan `users.values()` in insertion
order and return the first user with the given username. -/
def getUserByUsername (st : Store) (username : String) : Option User :=
  (mapValues st.users).find? (fun u => u.username == username)

/-- `createUser(userData)`: hash the password, assign the next user id,
store the user. -/
def createUser (hash : String → String) (st : Store) (d : InsertUser) (now : Nat) :
    User × Store :=
  let id := st.userIdCounter
  let user : User :=
    { id := id, username := d.username, password := hash d.password
      email := d.email, fullName := d.fullName, profileImage := d.profileImage
      telegramToken := d.telegramToken, telegramChatId := d.telegramChatId
      createdAt := now }
  (user, { st with users := mapSet st.users id user, userIdCounter := id + 1 })

/-- `getClientsForUser(userId)`: all clients of the user, in insertion
order (the loop pushes matching values in iteration order). -/
def getClientsForUser (st : Store) (userId : Nat) : List Client :=
  (mapValues st.clients).filter (fun c => c.userId == userId)

/-- `getClient(id)`. -/
def getClient (st : Store) (id : Nat) : Option Client :=
  mapGet st.clients id

/-- `createActivity(activityData)`: assign the next activity id and store
the record. -/
def createActivity (st : Store) (d : InsertActivity) (now : Nat) : Activity × Store :=
  let id := st.activityIdCounter
  let a : Activity :=
    { id := id, userId := d.userId, clientId := d.clientId
      type := d.type, description := d.description, createdAt := now }
  (a, { st with activities := mapSet st.activities id a, activityIdCounter := id + 1 })

/-- `createClient(clientData)`: store the new client, then record an
activity naming the client. -/
def createClient (st : Store) (d : InsertClient) (now : Nat) : Client × Store :=
  let id := st.clientIdCounter
  let c : Client :=
    { id := id, userId := d.userId, fullName := d.fullName, email := d.email
      phone := d.phone, birthDate := d.birthDate, gender := d.gender
      profileImage := d.profileImage, height := d.height
      startingWeight := d.startingWeight, targetWeight := d.targetWeight
      activityLevel := d.activityLevel, medicalHistory := d.medicalHistory
      dietaryRestrictions := d.dietaryRestrictions, telegramChatId := d.telegramChatId
      notes := d.notes, isActive := d.isActive, createdAt := now }
  let st1 := { st with clients := mapSet st.clients id c, clientIdCounter := id + 1 }
  let st2 := (createActivity st1
    { userId := d.userId, clientId := some id, type := "client"
      description := "Yeni danışan eklendi: " ++ d.fullName } now).2
  (c, st2)

/-- `updateClient(id, clientData)`: merge the patch over the stored
client, or signal absence. -/
def updateClient (st : Store) (id : Nat) (p : ClientPatch) : Option Client × Store :=
  match mapGet st.clients id with
  | none => (none, st)
  | some c =>
      let c' := applyClientPatch c p
      (some c', { st with clients := mapSet st.clients id c' })

/-- `deleteClient(id)`: remove the entry; the result reports whether it
existed. -/
def deleteClient (st : Store) (id : Nat) : Bool × Store :=
  ((mapGet st.clients id).isSome, { st with clients := mapDelete st.clients id })

/-- `getMeasurementsForClient(clientId)`: matching measurements, sorted
by `date` descending. -/
def getMeasurementsForClient (st : Store) (clientId : Nat) : List Measurement :=
  List.insertionSort Measurement.byDateDesc
    ((mapValues st.measurements).filter (fun m => m.clientId == clientId))

/-- `getMeasurement(id)`. -/
def getMeasurement (st : Store) (id : Nat) : Option Measurement :=
  mapGet st.measurements id

/-- `createMeasurement(measurementData)`: store the measurement; when the
referenced client resolves, also record an activity naming the client —
otherwise no activity is recorded. -/
def createMeasurement (st : Store) (d : InsertMeasurement) (now : Nat) :
    Measurement × Store :=
  let id := st.measurementIdCounter
  let m : Measurement :=
    { id := id, clientId := d.clientId, date := d.date, weight := d.weight
      chest := d.chest, waist := d.waist, hip := d.hip, arm := d.arm
      thigh := d.thigh, bodyFatPercentage := d.bodyFatPercentage, notes := d.notes }
  let st1 := { st with measurements := mapSet st.measurements id m
                       measurementIdCounter := id + 1 }
  match mapGet st1.clients d.clientId with
  | some client =>
      (m, (createActivity st1
        { userId := client.userId, clientId := some d.clientId, type := "measurement"
          description := "Yeni ölçüm kaydedildi: " ++ client.fullName ++ " için" } now).2)
  | none => (m, st1)

/-- `updateMeasurement(id, measurementData)`. -/
def updateMeasurement (st : Store) (id : Nat) (p : MeasurementPatch) :
    Option Measurement × Store :=
  match mapGet st.measurements id with
  | none => (none, st)
  | some m =>
      let m' := applyMeasurementPatch m p
      (some m', { st with measurements := mapSet st.measurements id m' })

/-- `deleteMeasurement(id)`. -/
def deleteMeasurement (st : Store) (id : Nat) : Bool × Store :=
  ((mapGet st.measurements id).isSome,
   { st with measurements := mapDelete st.measurements id })

/-- `getDietPlansForUser(userId)`: matching plans in insertion order. -/
def getDietPlansForUser (st : Store) (userId : Nat) : List DietPlan :=
  (mapValues st.dietPlans).filter (fun d => d.userId == userId)

/-- `getDietPlansForClient(clientId)`: matching plans sorted by
`createdAt` descending. -/
def getDietPlansForClient (st : Store) (clientId : Nat) : List DietPlan :=
  List.insertionSort DietPlan.byCreatedAtDesc
    ((mapValues st.dietPlans).filter (fun d => d.clientId == clientId))

/-- `getDietPlan(id)`. -/
def getDietPlan (st : Store) (id : Nat) : Option DietPlan :=
  mapGet st.dietPlans id

/-- `createDietPlan(dietPlanData)`: store the plan, then record an
activity; an unresolved client degrades the name to the placeholder
`"Bilinmeyen Danışan"`. -/
def createDietPlan (st : Store) (d : InsertDietPlan) (now : Nat) : DietPlan × Store :=
  let id := st.dietPlanIdCounter
  let plan : DietPlan :=
    { id := id, userId := d.userId, clientId := d.clientId, name := d.name
      description := d.description, startDate := d.startDate, endDate := d.endDate
      dailyCalories := d.dailyCalories, macroProtein := d.macroProtein
      macroCarbs := d.macroCarbs, macroFat := d.macroFat, meals := d.meals
      isActive := d.isActive, createdAt := now }
  let st1 := { st with dietPlans := mapSet st.dietPlans id plan
                       dietPlanIdCounter := id + 1 }
  let clientName := match mapGet st1.clients d.clientId with
    | some c => c.fullName
    | none => "Bilinmeyen Danışan"
  let st2 := (createActivity st1
    { userId := d.userId, clientId := some d.clientId, type := "diet_plan"
      description := "Yeni diyet planı oluşturuldu: " ++ clientName ++ " için " ++ d.name }
    now).2
  (plan, st2)

/-- `updateDietPlan(id, dietPlanData)`. -/
def updateDietPlan (st : Store) (id : Nat) (p : DietPlanPatch) :
    Option DietPlan × Store :=
  match mapGet st.dietPlans id with
  | none => (none, st)
  | some d =>
      let d' := applyDietPlanPatch d p
      (some d', { st with dietPlans := mapSet st.dietPlans id d' })

/-- `deleteDietPlan(id)`. -/
def deleteDietPlan (st : Store) (id : Nat) : Bool × Store :=
  ((mapGet st.dietPlans id).isSome, { st with dietPlans := mapDelete st.dietPlans id })

/-- `getAppointmentsForUser(userId)`: matching appointments sorted by
`date` ascending. -/
def getAppointmentsForUser (st : Store) (userId : Nat) : List Appointment :=
  List.insertionSort Appointment.byDateAsc
    ((mapValues st.appointments).filter (fun a => a.userId == userId))

/-- `getAppointmentsForClient(clientId)`: matching appointments sorted by
`date` ascending. -/
def getAppointmentsForClient (st : Store) (clientId : Nat) : List Appointment :=
  List.insertionSort Appointment.byDateAsc
    ((mapValues st.appointments).filter (fun a => a.clientId == clientId))

/-- `getAppointment(id)`. -/
def getAppointment (st : Store) (id : Nat) : Option Appointment :=
  mapGet st.appointments id

/-- `createAppointment(appointmentData)`: store the appointment, then
record an activity; an unresolved client degrades the name to the
placeholder `"Bilinmeyen Danışan"`. -/
def createAppointment (st : Store) (d : InsertAppointment) (now : Nat) :
    Appointment × Store :=
  let id := st.appointmentIdCounter
  let a : Appointment :=
    { id := id, userId := d.userId, clientId := d.clientId, date := d.date
      duration := d.duration, type := d.type, notes := d.notes
      status := d.status, createdAt := now }
  let st1 := { st with appointments := mapSet st.appointments id a
                       appointmentIdCounter := id + 1 }
  let clientName := match mapGet st1.clients d.clientId with
    | some c => c.fullName
    | none => "Bilinmeyen Danışan"
  let st2 := (createActivity st1
    { userId := d.userId, clientId := some d.clientId, type := "appointment"
      description := "Yeni randevu oluşturuldu: " ++ clientName ++ " ile "
        ++ trDateString d.date } now).2
  (a, st2)

/-- `updateAppointment(id, appointmentData)`. -/
def updateAppointment (st : Store) (id : Nat) (p : AppointmentPatch) :
    Option Appointment × Store :=
  match mapGet st.appointments id with
  | none => (none, st)
  | some a =>
      let a' := applyAppointmentPatch a p
      (some a', { st with appointments := mapSet st.appointments id a' })

/-- `deleteAppointment(id)`. -/
def deleteAppointment (st : Store) (id : Nat) : Bool × Store :=
  ((mapGet st.appointments id).isSome,
   { st with appointments := mapDelete st.appointments id })

/-- `getActivitiesForUser(userId, limit?)`: matching activities sorted by
`createdAt` descending, truncated to `limit` when `limit && limit > 0`
(so a missing, zero or negative limit leaves the list whole). -/
def getActivitiesForUser (st : Store) (userId : Nat) (limit : Option Int) :
    List Activity :=
  let sorted := List.insertionSort Activity.byCreatedAtDesc
    ((mapValues st.activities).filter (fun a => a.userId == userId))
  match limit with
  | some l => if 0 < l then sorted.take l.toNat else sorted
  | none => sorted

/-- `getBlogArticles(limit?)`: all articles sorted by `publishedAt`
descending, truncated exactly like `getActivitiesForUser`. -/
def getBlogArticles (st : Store) (limit : Option Int) : List BlogArticle :=
  let sorted := List.insertionSort BlogArticle.byPublishedAtDesc
    (mapValues st.blogArticles)
  match limit with
  | some l => if 0 < l then sorted.take l.toNat else sorted
  | none => sorted

/-- `getBlogArticle(id)`. -/
def getBlogArticle (st : Store) (id : Nat) : Option BlogArticle :=
  mapGet st.blogArticles id

/-- `createBlogArticle(articleData)`. -/
def createBlogArticle (st : Store) (d : InsertBlogArticle) (now : Nat) :
    BlogArticle × Store :=
  let id := st.blogArticleIdCounter
  let a : BlogArticle :=
    { id := id, title := d.title, summary := d.summary, content := d.content
      author := d.author, imageUrl := d.imageUrl, readTime := d.readTime
      publishedAt := now }
  (a, { st with blogArticles := mapSet st.blogArticles id a
                blogArticleIdCounter := id + 1 })

/-! ## Request handlers (`server/routes.ts`)

Handlers are modelled after schema validation has succeeded (zod
parsing happens at the request boundary and its failure yields a 400
before any of the code below runs).  The authenticated principal's id
(`res.locals.userId`, decoded from the bearer token) is a parameter. -/

/-- `User` with the `password` field destructured away
(`const { password, ...userWithoutPassword } = user`). -/
structure PublicUser where
  id : Nat
  username : String
  email : String
  fullName : String
  profileImage : Option String
  telegramToken : Option String
  telegramChatId : Option String
  createdAt : Nat
deriving Repr, DecidableEq

/-- Drop the password from a user record. -/
def User.withoutPassword (u : User) : PublicUser :=
  { id := u.id, username := u.username, email := u.email, fullName := u.fullName
    profileImage := u.profileImage, telegramToken := u.telegramToken
    telegramChatId := u.telegramChatId, createdAt := u.createdAt }

/-- The payload signed into the bearer token
(`jwt.sign({ id, username }, ...)`); the signature itself is opaque. -/
structure AuthToken where
  id : Nat
  username : String
deriving Repr, DecidableEq

/-- Outcome of an auth route: a success body `{ user, token }` with its
HTTP status, or an error body `{ message }` with its status. -/
inductive AuthResult where
  | ok (status : Nat) (user : PublicUser) (token : AuthToken)
  | err (status : Nat) (message : String)
deriving Repr, DecidableEq

/-- `POST /api/auth/register`: reject an already-used username with 400
and leave the store untouched; otherwise create the user and answer 201. -/
def registerHandler (hash : String → String) (st : Store) (d : InsertUser)
    (now : Nat) : AuthResult × Store :=
  match getUserByUsername st d.username with
  | some _ => (.err 400 "Bu kullanıcı adı zaten kullanılıyor", st)
  | none =>
      let res := createUser hash st d now
      (.ok 201 res.1.withoutPassword ⟨res.1.id, res.1.username⟩, res.2)

/-- `POST /api/auth/login`: unknown username and wrong password produce
the same 401 body; `cmp` models `bcrypt.compare`. -/
def loginHandler (cmp : String → String → Bool) (st : Store)
    (username password : String) : AuthResult :=
  match getUserByUsername st username with
  | none => .err 401 "Geçersiz kullanıcı adı veya şifre"
  | some user =>
      if cmp password user.password then
        .ok 200 user.withoutPassword ⟨user.id, user.username⟩
      else
        .err 401 "Geçersiz kullanıcı adı veya şifre"

/-- Outcome of a client route: a success body with its status, or an
error body `{ message }` with its status. -/
inductive RouteResult (α : Type) where
  | ok (status : Nat) (body : α)
  | err (status : Nat) (message : String)
deriving Repr, DecidableEq

/-- `GET /api/clients/:id`: 404 when absent, 403 when owned by another
user (no client data in the body), the client itself otherwise. -/
def getClientRoute (st : Store) (principal : Nat) (id : Nat) : RouteResult Client :=
  match getClient st id with
  | none => .err 404 "Danışan bulunamadı"
  | some c =>
      if c.userId ≠ principal then .err 403 "Bu danışana erişim izniniz yok"
      else .ok 200 c

/-- `PUT /api/clients/:id`: 404 / 403 as above, else merge the patch and
answer with `updateClient`'s result. -/
def putClientRoute (st : Store) (principal : Nat) (id : Nat) (p : ClientPatch) :
    RouteResult (Option Client) × Store :=
  match getClient st id with
  | none => (.err 404 "Danışan bulunamadı", st)
  | some c =>
      if c.userId ≠ principal then (.err 403 "Bu danışanı güncelleme izniniz yok", st)
      else
        let res := updateClient st id p
        (.ok 200 res.1, res.2)

/-- `DELETE /api/clients/:id`: 404 / 403 as above, else delete and answer
204 with no body. -/
def deleteClientRoute (st : Store) (principal : Nat) (id : Nat) :
    RouteResult Unit × Store :=
  match getClient st id with
  | none => (.err 404 "Danışan bulunamadı", st)
  | some c =>
      if c.userId ≠ principal then (.err 403 "Bu danışanı silme izniniz yok", st)
      else
        let res := deleteClient st id
        (.ok 204 (), res.2)

/-! ## Sequences of store operations

`Op` enumerates the mutating methods of `IStorage`; `applyOp` runs one
of them for its state effect and `runOps` a whole history.  This is the
vehicle for process-lifetime claims about identifier assignment. -/

/-- One mutating call to the store. -/
inductive Op where
  | createUser (d : InsertUser) (now : Nat)
  | createClient (d : InsertClient) (now : Nat)
  | updateClient (id : Nat) (p : ClientPatch)
  | deleteClient (id : Nat)
  | createMeasurement (d : InsertMeasurement) (now : Nat)
  | updateMeasurement (id : Nat) (p : MeasurementPatch)
  | deleteMeasurement (id : Nat)
  | createDietPlan (d : InsertDietPlan) (now : Nat)
  | updateDietPlan (id : Nat) (p : DietPlanPatch)
  | deleteDietPlan (id : Nat)
  | createAppointment (d : InsertAppointment) (now : Nat)
  | updateAppointment (id : Nat) (p : AppointmentPatch)
  | deleteAppointment (id : Nat)
  | createActivity (d : InsertActivity) (now : Nat)
  | createBlogArticle (d : InsertBlogArticle) (now : Nat)
deriving Repr

/-- State effect of one store call. -/
def applyOp (hash : String → String) (st : Store) : Op → Store
  | .createUser d now => (createUser hash st d now).2
  | .createClient d now => (createClient st d now).2
  | .updateClient id p => (updateClient st id p).2
  | .deleteClient id => (deleteClient st id).2
  | .createMeasurement d now => (createMeasurement st d now).2
  | .updateMeasurement id p => (updateMeasurement st id p).2
  | .deleteMeasurement id => (deleteMeasurement st id).2
  | .createDietPlan d now => (createDietPlan st d now).2
  | .updateDietPlan id p => (updateDietPlan st id p).2
  | .deleteDietPlan id => (deleteDietPlan st id).2
  | .createAppointment d now => (createAppointment st d now).2
  | .updateAppointment id p => (updateAppointment st id p).2
  | .deleteAppointment id => (deleteAppointment st id).2
  | .createActivity d now => (createActivity st d now).2
  | .createBlogArticle d now => (createBlogArticle st d now).2

/-- Run a history of store calls. -/
def runOps (hash : String → String) (st : Store) : List Op → Store
  | [] => st
  | op :: ops => runOps hash (applyOp hash st op) ops

/-- The identifiers a single call assigns to newly created entities of
one type, as computed by `assigned`; concatenated over a history this
yields the full assignment trace for that type. -/
def opTrace (hash : String → String) (assigned : Store → Op → List Nat)
    (st : Store) : List Op → List Nat
  | [] => []
  | op :: ops => assigned st op ++ opTrace hash assigned (applyOp hash st op) ops

/-- Ids assigned to new users by one call. -/
def userIdsAssigned (hash : String → String) (st : Store) : Op → List Nat
  | .createUser d now => [(createUser hash st d now).1.id]
  | _ => []

/-- Ids assigned to new clients by one call. -/
def clientIdsAssigned (st : Store) : Op → List Nat
  | .createClient d now => [(createClient st d now).1.id]
  | _ => []

/-- Ids assigned to new measurements by one call. -/
def measurementIdsAssigned (st : Store) : Op → List Nat
  | .createMeasurement d now => [(createMeasurement st d now).1.id]
  | _ => []

/-- Ids assigned to new diet plans by one call. -/
def dietPlanIdsAssigned (st : Store) : Op → List Nat
  | .createDietPlan d now => [(createDietPlan st d now).1.id]
  | _ => []

/-- Ids assigned to new appointments by one call. -/
def appointmentIdsAssigned (st : Store) : Op → List Nat
  | .createAppointment d now => [(createAppointment st d now).1.id]
  | _ => []

/-- Ids assigned to new activities by one call: a direct
`createActivity`, the unconditional recorder calls embedded in
`createClient` / `createDietPlan` / `createAppointment`, and the
conditional one in `createMeasurement`. -/
def activityIdsAssigned (st : Store) : Op → List Nat
  | .createActivity d now => [(createActivity st d now).1.id]
  | .createClient _ _ => [st.activityIdCounter]
  | .createDietPlan _ _ => [st.activityIdCounter]
  | .createAppointment _ _ => [st.activityIdCounter]
  | .createMeasurement d _ =>
      if (mapGet st.clients d.clientId).isSome then [st.activityIdCounter] else []
  | _ => []

/-- Ids assigned to new blog articles by one call. -/
def blogArticleIdsAssigned (st : Store) : Op → List Nat
  | .createBlogArticle d now => [(createBlogArticle st d now).1.id]
  | _ => []

/-- Well-formedness of one map relative to its id counter: every key was
assigned below the counter, and keys are unique. -/
def MapWF {α : Type} (m : List (Nat × α)) (ctr : Nat) : Prop :=
  (∀ p ∈ m, p.1 < ctr) ∧ (m.map Prod.fst).Nodup

/-- Well-formedness of the whole store. -/
def StoreWF (st : Store) : Prop :=
  MapWF st.users st.userIdCounter ∧
  MapWF st.clients st.clientIdCounter ∧
  MapWF st.measurements st.measurementIdCounter ∧
  MapWF st.dietPlans st.dietPlanIdCounter ∧
  MapWF st.appointments st.appointmentIdCounter ∧
  MapWF st.activities st.activityIdCounter ∧
  MapWF st.blogArticles st.blogArticleIdCounter

/-- The three seed articles installed by the `MemStorage` constructor. -/
def initialArticle1 : InsertBlogArticle :=
  { title := "Kilo Vermede Sağlıklı Beslenmenin Önemi"
    summary := "Sağlıklı ve dengeli beslenme alışkanlıkları edinmek, kilo vermenin en önemli adımıdır..."
    content := "Detaylı içerik burada yer alacak"
    author := "Prof. Dr. Ayşe Yılmaz"
    imageUrl := some "https://images.unsplash.com/photo-1490645935967-10de6ba17061?ixlib=rb-1.2.1&auto=format&fit=crop&w=800&q=80"
    readTime := some 8 }

/-- Second seed article. -/
def initialArticle2 : InsertBlogArticle :=
  { title := "Düzenli Egzersizin Metabolizma Üzerindeki Etkileri"
    summary := "Düzenli fiziksel aktivite, metabolizmayı hızlandırarak kalori yakımını artırır..."
    content := "Detaylı içerik burada yer alacak"
    author := "Uzm. Dyt. Mehmet Demir"
    imageUrl := some "https://images.unsplash.com/photo-1517836357463-d25dfeac3438?ixlib=rb-1.2.1&auto=format&fit=crop&w=800&q=80"
    readTime := some 6 }

/-- Third seed article. -/
def initialArticle3 : InsertBlogArticle :=
  { title := "Mevsimsel Besinlerin Sağlık Üzerindeki Olumlu Etkileri"
    summary := "Mevsiminde tüketilen sebze ve meyveler, hem besin değeri açısından daha zengindir..."
    content := "Detaylı içerik burada yer alacak"
    author := "Dyt. Zeynep Kaya"
    imageUrl := some "https://images.unsplash.com/photo-1512621776951-a57141f2eefd?ixlib=rb-1.2.1&auto=format&fit=crop&w=800&q=80"
    readTime := some 5 }

/-- The store as the `MemStorage` constructor leaves it
(`addInitialBlogArticles` run at construction time `now`). -/
def initialStore (now : Nat) : Store :=
  (createBlogArticle
    (createBlogArticle
      (createBlogArticle emptyStore initialArticle1 now).2 initialArticle2 now).2
    initialArticle3 now).2


/-! ## Concrete fixtures used for counterexamples and witnesses -/

/-- A concrete stand-in for `bcrypt.hash`. -/
def hash0 : String → String := fun s => String.append s "$hashed"

/-- A concrete stand-in for `bcrypt.compare` that rejects everything
(as `bcrypt.compare` does on a wrong password). -/
def cmp0 : String → String → Bool := fun _ _ => false

/-- Sample registration payload. -/
def sampleUser (name : String) : InsertUser :=
  { username := name, password := "pw", email := String.append name "@mail"
    fullName := name, profileImage := none, telegramToken := none
    telegramChatId := none }

/-- Sample client payload. -/
def sampleClient (uid : Nat) (name : String) : InsertClient :=
  { userId := uid, fullName := name, email := "c@mail", phone := "555"
    birthDate := none, gender := "female", profileImage := none, height := none
    startingWeight := none, targetWeight := none, activityLevel := none
    medicalHistory := none, dietaryRestrictions := none, telegramChatId := none
    notes := none, isActive := true }

/-- Sample measurement payload. -/
def sampleMeasurement (cid date : Nat) : InsertMeasurement :=
  { clientId := cid, date := date, weight := some 70, chest := none, waist := none
    hip := none, arm := none, thigh := none, bodyFatPercentage := none, notes := none }

/-- Sample diet-plan payload. -/
def sampleDietPlan (uid cid : Nat) (name : String) : InsertDietPlan :=
  { userId := uid, clientId := cid, name := name, description := none
    startDate := 0, endDate := none, dailyCalories := none, macroProtein := none
    macroCarbs := none, macroFat := none, meals := "[]", isActive := true }

/-- Sample appointment payload. -/
def sampleAppointment (uid cid date : Nat) : InsertAppointment :=
  { userId := uid, clientId := cid, date := date, duration := 30, type := "online"
    notes := none, status := "scheduled" }

/-- Sample activity payload. -/
def sampleActivity (uid : Nat) : InsertActivity :=
  { userId := uid, clientId := none, type := "telegram", description := "mesaj" }

/-- Store holding one registered user. -/
def storeUser1 : Store := (createUser hash0 emptyStore (sampleUser "demo") 1).2

/-- That user's record. -/
def user1 : User := (createUser hash0 emptyStore (sampleUser "demo") 1).1

/-- Store holding one client owned by user 1. -/
def storeClient1 : Store := (createClient emptyStore (sampleClient 1 "Ayşe Yılmaz") 10).2

/-- That client's record. -/
def client1 : Client := (createClient emptyStore (sampleClient 1 "Ayşe Yılmaz") 10).1

/-- Store with two appointments of user 1, created in the order
date 20 then date 10. -/
def storeApptPair : Store :=
  (createAppointment
    (createAppointment emptyStore (sampleAppointment 1 1 20) 100).2
    (sampleAppointment 1 1 10) 101).2

/-- Store with five activities of user 1, created at times 11 .. 15. -/
def storeActs5 : Store :=
  (createActivity
    (createActivity
      (createActivity
        (createActivity
          (createActivity emptyStore (sampleActivity 1) 11).2
          (sampleActivity 1) 12).2
        (sampleActivity 1) 13).2
      (sampleActivity 1) 14).2
    (sampleActivity 1) 15).2

/-- Store with one client of user 1 and three of its measurements,
created in date order 10, 20, 30. -/
def storeMeas3 : Store :=
  (createMeasurement
    (createMeasurement
      (createMeasurement storeClient1 (sampleMeasurement 1 10) 41).2
      (sampleMeasurement 1 20) 42).2
    (sampleMeasurement 1 30) 43).2

/-- Store with one client of user 1 plus one dependent measurement,
diet plan and appointment. -/
def storeFull : Store :=
  (createAppointment
    (createDietPlan
      (createMeasurement storeClient1 (sampleMeasurement 1 10) 41).2
      (sampleDietPlan 1 1 "Kilo Verme Diyeti") 42).2
    (sampleAppointment 1 1 90) 43).2

/-! ## Lemmas about the map primitives -/

theorem mapGet_eq_none_of_forall_ne {α : Type} (m : List (Nat × α)) (k : Nat)
    (h : ∀ p ∈ m, p.1 ≠ k) : mapGet m k = none := by
  induction m with
  | nil => rfl
  | cons p rest ih =>
      obtain ⟨k', v'⟩ := p
      have hk : k' ≠ k := h (k', v') (List.mem_cons_self _ _)
      simp only [mapGet, if_neg hk]
      exact ih (fun q hq => h q (List.mem_cons_of_mem _ hq))

theorem mapGet_mapSet_ne {α : Type} (m : List (Nat × α)) {k k' : Nat} (v : α)
    (h : k ≠ k') : mapGet (mapSet m k v) k' = mapGet m k' := by
  induction m with
  | nil => simp [mapSet, mapGet, h]
  | cons p rest ih =>
      obtain ⟨k'', v''⟩ := p
      by_cases hk : k'' = k
      · subst hk
        simp [mapSet, mapGet, h]
      · simp [mapSet, mapGet, hk, ih]

theorem mapSet_eq_append {α : Type} (m : List (Nat × α)) (k : Nat) (v : α)
    (h : ∀ p ∈ m, p.1 ≠ k) : mapSet m k v = m ++ [(k, v)] := by
  induction m with
  | nil => rfl
  | cons p rest ih =>
      obtain ⟨k', v'⟩ := p
      have hk : k' ≠ k := h (k', v') (List.mem_cons_self _ _)
      simp only [mapSet, if_neg hk, List.cons_append, List.cons.injEq, true_and]
      exact ih (fun q hq => h q (List.mem_cons_of_mem _ hq))

theorem mapGet_mapDelete_ne {α : Type} (m : List (Nat × α)) {k k' : Nat}
    (h : k ≠ k') : mapGet (mapDelete m k) k' = mapGet m k' := by
  induction m with
  | nil => rfl
  | cons p rest ih =>
      obtain ⟨k'', v''⟩ := p
      by_cases hk : k'' = k
      · subst hk
        simp [mapDelete, mapGet, h]
      · simp [mapDelete, mapGet, hk, ih]

theorem mapGet_mapDelete_self {α : Type} (m : List (Nat × α)) (k : Nat)
    (h : (m.map Prod.fst).Nodup) : mapGet (mapDelete m k) k = none := by
  induction m with
  | nil => rfl
  | cons p rest ih =>
      obtain ⟨k', v'⟩ := p
      rw [List.map_cons, List.nodup_cons] at h
      by_cases hk : k' = k
      · subst hk
        simp only [mapDelete, if_pos rfl]
        refine mapGet_eq_none_of_forall_ne rest k' (fun q hq hqk => h.1 ?_)
        have hmem : q.1 ∈ rest.map Prod.fst := List.mem_map_of_mem Prod.fst hq
        rwa [hqk] at hmem
      · simp [mapDelete, mapGet, hk, ih h.2]

/-! ## Lemmas about identifier assignment along a history -/

/-- All seven id counters are monotone along any store call. -/
theorem applyOp_counters_mono (hash : String → String) (st : Store) (op : Op) :
    st.userIdCounter ≤ (applyOp hash st op).userIdCounter ∧
    st.clientIdCounter ≤ (applyOp hash st op).clientIdCounter ∧
    st.measurementIdCounter ≤ (applyOp hash st op).measurementIdCounter ∧
    st.dietPlanIdCounter ≤ (applyOp hash st op).dietPlanIdCounter ∧
    st.appointmentIdCounter ≤ (applyOp hash st op).appointmentIdCounter ∧
    st.activityIdCounter ≤ (applyOp hash st op).activityIdCounter ∧
    st.blogArticleIdCounter ≤ (applyOp hash st op).blogArticleIdCounter := by
  cases op <;>
    simp only [applyOp, createUser, createClient, createActivity, createMeasurement,
      createDietPlan, createAppointment, createBlogArticle, updateClient,
      updateMeasurement, updateDietPlan, updateAppointment, deleteClient,
      deleteMeasurement, deleteDietPlan, deleteAppointment] <;>
    (try split) <;>
    simp_arith

/-- Every id in a trace is at least the projected counter at its start. -/
theorem opTrace_lower (hash : String → String) (proj : Store → Nat)
    (assigned : Store → Op → List Nat)
    (hmono : ∀ st op, proj st ≤ proj (applyOp hash st op))
    (hlo : ∀ st op, ∀ x ∈ assigned st op, proj st ≤ x) :
    ∀ (ops : List Op) (st : Store), ∀ x ∈ opTrace hash assigned st ops, proj st ≤ x := by
  intro ops
  induction ops with
  | nil => intro st x hx; simp [opTrace] at hx
  | cons op rest ih =>
      intro st x hx
      rw [opTrace, List.mem_append] at hx
      rcases hx with hx | hx
      · exact hlo st op x hx
      · exact Nat.le_trans (hmono st op) (ih (applyOp hash st op) x hx)

/-- A trace whose steps assign at most one id each, always at least the
counter and strictly below the next counter, is strictly increasing. -/
theorem opTrace_pairwise (hash : String → String) (proj : Store → Nat)
    (assigned : Store → Op → List Nat)
    (hmono : ∀ st op, proj st ≤ proj (applyOp hash st op))
    (hlo : ∀ st op, ∀ x ∈ assigned st op, proj st ≤ x)
    (hhi : ∀ st op, ∀ x ∈ assigned st op, x < proj (applyOp hash st op))
    (hsingle : ∀ st op, (assigned st op).length ≤ 1) :
    ∀ (ops : List Op) (st : Store),
      List.Pairwise (· < ·) (opTrace hash assigned st ops) := by
  intro ops
  induction ops with
  | nil => intro st; exact List.Pairwise.nil
  | cons op rest ih =>
      intro st
      rw [opTrace, List.pairwise_append]
      refine ⟨?_, ih _, ?_⟩
      · have h1 := hsingle st op
        cases hl : assigned st op with
        | nil => exact List.Pairwise.nil
        | cons a t =>
            rw [hl] at h1
            cases t with
            | nil => exact List.pairwise_singleton _ _
            | cons b t' => simp at h1
      · intro x hx y hy
        exact Nat.lt_of_lt_of_le (hhi st op x hx)
          (opTrace_lower hash proj assigned hmono hlo rest _ y hy)


theorem userIds_strictMono (hash : String → String) (ops : List Op) (st : Store) :
    List.Pairwise (· < ·) (opTrace hash (userIdsAssigned hash) st ops) := by
  refine opTrace_pairwise hash Store.userIdCounter (userIdsAssigned hash)
    (fun st op => (applyOp_counters_mono hash st op).1) ?_ ?_ ?_ ops st
  · intro st op x hx
    cases op <;> simp [userIdsAssigned, createUser] at hx <;> omega
  · intro st op x hx
    cases op <;> simp [userIdsAssigned, applyOp, createUser] at hx ⊢ <;> omega
  · intro st op
    cases op <;> simp [userIdsAssigned]

theorem clientIds_strictMono (hash : String → String) (ops : List Op) (st : Store) :
    List.Pairwise (· < ·) (opTrace hash clientIdsAssigned st ops) := by
  refine opTrace_pairwise hash Store.clientIdCounter clientIdsAssigned
    (fun st op => (applyOp_counters_mono hash st op).2.1) ?_ ?_ ?_ ops st
  · intro st op x hx
    cases op <;> simp [clientIdsAssigned, createClient] at hx <;> omega
  · intro st op x hx
    cases op <;>
      simp [clientIdsAssigned, applyOp, createClient, createActivity] at hx ⊢ <;> omega
  · intro st op
    cases op <;> simp [clientIdsAssigned]

theorem measurementIds_strictMono (hash : String → String) (ops : List Op) (st : Store) :
    List.Pairwise (· < ·) (opTrace hash measurementIdsAssigned st ops) := by
  refine opTrace_pairwise hash Store.measurementIdCounter measurementIdsAssigned
    (fun st op => (applyOp_counters_mono hash st op).2.2.1) ?_ ?_ ?_ ops st
  · intro st op x hx
    cases op <;> simp [measurementIdsAssigned] at hx <;> try omega
    case createMeasurement d now =>
      cases h : mapGet st.clients d.clientId <;>
        simp [createMeasurement, createActivity, h] at hx <;> omega
  · intro st op x hx
    cases op <;> simp [measurementIdsAssigned, applyOp] at hx ⊢ <;> try omega
    case createMeasurement d now =>
      cases h : mapGet st.clients d.clientId <;>
        simp [createMeasurement, createActivity, h] at hx ⊢ <;> omega
  · intro st op
    cases op <;> simp [measurementIdsAssigned]

theorem dietPlanIds_strictMono (hash : String → String) (ops : List Op) (st : Store) :
    List.Pairwise (· < ·) (opTrace hash dietPlanIdsAssigned st ops) := by
  refine opTrace_pairwise hash Store.dietPlanIdCounter dietPlanIdsAssigned
    (fun st op => (applyOp_counters_mono hash st op).2.2.2.1) ?_ ?_ ?_ ops st
  · intro st op x hx
    cases op <;> simp [dietPlanIdsAssigned, createDietPlan] at hx <;> omega
  · intro st op x hx
    cases op <;>
      simp [dietPlanIdsAssigned, applyOp, createDietPlan, createActivity] at hx ⊢ <;>
      omega
  · intro st op
    cases op <;> simp [dietPlanIdsAssigned]

theorem appointmentIds_strictMono (hash : String → String) (ops : List Op) (st : Store) :
    List.Pairwise (· < ·) (opTrace hash appointmentIdsAssigned st ops) := by
  refine opTrace_pairwise hash Store.appointmentIdCounter appointmentIdsAssigned
    (fun st op => (applyOp_counters_mono hash st op).2.2.2.2.1) ?_ ?_ ?_ ops st
  · intro st op x hx
    cases op <;> simp [appointmentIdsAssigned, createAppointment] at hx <;> omega
  · intro st op x hx
    cases op <;>
      simp [appointmentIdsAssigned, applyOp, createAppointment, createActivity]
        at hx ⊢ <;>
      omega
  · intro st op
    cases op <;> simp [appointmentIdsAssigned]

theorem activityIds_strictMono (hash : String → String) (ops : List Op) (st : Store) :
    List.Pairwise (· < ·) (opTrace hash activityIdsAssigned st ops) := by
  refine opTrace_pairwise hash Store.activityIdCounter activityIdsAssigned
    (fun st op => (applyOp_counters_mono hash st op).2.2.2.2.2.1) ?_ ?_ ?_ ops st
  · intro st op x hx
    cases op <;> simp [activityIdsAssigned, createActivity] at hx <;> omega
  · intro st op x hx
    cases op <;>
      simp [activityIdsAssigned, applyOp, createActivity, createClient, createDietPlan,
        createAppointment] at hx ⊢ <;>
      try omega
    case createMeasurement d now =>
      cases h : mapGet st.clients d.clientId <;>
        simp [createMeasurement, createActivity, h] at hx ⊢ <;> omega
  · intro st op
    cases op <;> simp [activityIdsAssigned]
    case createMeasurement d now =>
      split <;> simp

theorem blogArticleIds_strictMono (hash : String → String) (ops : List Op) (st : Store) :
    List.Pairwise (· < ·) (opTrace hash blogArticleIdsAssigned st ops) := by
  refine opTrace_pairwise hash Store.blogArticleIdCounter blogArticleIdsAssigned
    (fun st op => (applyOp_counters_mono hash st op).2.2.2.2.2.2) ?_ ?_ ?_ ops st
  · intro st op x hx
    cases op <;> simp [blogArticleIdsAssigned, createBlogArticle] at hx <;> omega
  · intro st op x hx
    cases op <;>
      simp [blogArticleIdsAssigned, applyOp, createBlogArticle] at hx ⊢ <;> omega
  · intro st op
    cases op <;> simp [blogArticleIdsAssigned]

/-! ## Well-formedness of the store -/

theorem mapGet_eq_some_mem {α : Type} {m : List (Nat × α)} {k : Nat} {v : α}
    (h : mapGet m k = some v) : (k, v) ∈ m := by
  induction m with
  | nil => simp [mapGet] at h
  | cons p rest ih =>
      obtain ⟨k', v'⟩ := p
      by_cases hk : k' = k
      · subst hk
        simp [mapGet] at h
        rw [← h]
        exact List.mem_cons_self _ _
      · simp only [mapGet, if_neg hk] at h
        exact List.mem_cons_of_mem _ (ih h)

theorem mem_mapSet {α : Type} {m : List (Nat × α)} {k : Nat} {v : α} {p : Nat × α}
    (h : p ∈ mapSet m k v) : p = (k, v) ∨ p ∈ m := by
  induction m with
  | nil => simpa [mapSet] using h
  | cons q rest ih =>
      obtain ⟨k', v'⟩ := q
      by_cases hk : k' = k
      · subst hk
        simp only [mapSet, if_pos rfl] at h
        rcases List.mem_cons.1 h with h | h
        · exact Or.inl h
        · exact Or.inr (List.mem_cons_of_mem _ h)
      · simp only [mapSet, if_neg hk] at h
        rcases List.mem_cons.1 h with h | h
        · exact Or.inr (h ▸ List.mem_cons_self _ _)
        · rcases ih h with h' | h'
          · exact Or.inl h'
          · exact Or.inr (List.mem_cons_of_mem _ h')

theorem mapSet_keys_of_mem {α : Type} {m : List (Nat × α)} {k : Nat} (v : α)
    (h : k ∈ m.map Prod.fst) :
    (mapSet m k v).map Prod.fst = m.map Prod.fst := by
  induction m with
  | nil => simp at h
  | cons q rest ih =>
      obtain ⟨k', v'⟩ := q
      by_cases hk : k' = k
      · subst hk
        simp [mapSet]
      · simp only [List.map_cons, List.mem_cons] at h
        rcases h with h | h
        · exact absurd h.symm hk
        · simp [mapSet, hk, ih h]

theorem mapDelete_sublist {α : Type} (m : List (Nat × α)) (k : Nat) :
    (mapDelete m k).Sublist m := by
  induction m with
  | nil => exact List.Sublist.refl _
  | cons q rest ih =>
      obtain ⟨k', v'⟩ := q
      by_cases hk : k' = k
      · subst hk
        simp only [mapDelete, if_pos rfl]
        exact List.sublist_cons_self _ _
      · simp only [mapDelete, if_neg hk]
        exact List.Sublist.cons₂ _ ih


theorem MapWF.set_fresh {α : Type} {m : List (Nat × α)} {ctr : Nat}
    (h : MapWF m ctr) (v : α) : MapWF (mapSet m ctr v) (ctr + 1) := by
  have hne : ∀ p ∈ m, p.1 ≠ ctr := fun p hp => Nat.ne_of_lt (h.1 p hp)
  rw [MapWF, mapSet_eq_append m ctr v hne]
  constructor
  · intro p hp
    rcases List.mem_append.1 hp with hp | hp
    · exact Nat.lt_trans (h.1 p hp) (Nat.lt_succ_self _)
    · simp at hp
      simp [hp]
  · rw [List.map_append, List.nodup_append]
    refine ⟨h.2, by simp, ?_⟩
    intro a ha
    simp only [List.map_cons, List.map_nil, List.mem_singleton]
    rcases List.mem_map.1 ha with ⟨p, hp, hpa⟩
    exact fun hc => Nat.ne_of_lt (h.1 p hp) (hpa.trans hc)

theorem MapWF.set_existing {α : Type} {m : List (Nat × α)} {ctr k : Nat} {v₀ : α}
    (h : MapWF m ctr) (hk : mapGet m k = some v₀) (v : α) :
    MapWF (mapSet m k v) ctr := by
  have hkm : (k, v₀) ∈ m := mapGet_eq_some_mem hk
  have hklt : k < ctr := h.1 _ hkm
  constructor
  · intro p hp
    rcases mem_mapSet hp with hp | hp
    · simp [hp, hklt]
    · exact h.1 p hp
  · rw [mapSet_keys_of_mem v (List.mem_map.2 ⟨(k, v₀), hkm, rfl⟩)]
    exact h.2

theorem MapWF.del {α : Type} {m : List (Nat × α)} {ctr : Nat}
    (h : MapWF m ctr) (k : Nat) : MapWF (mapDelete m k) ctr := by
  constructor
  · exact fun p hp => h.1 p ((mapDelete_sublist m k).mem hp)
  · exact h.2.sublist ((mapDelete_sublist m k).map Prod.fst)


/-- Every store call preserves well-formedness. -/
theorem applyOp_WF (hash : String → String) (st : Store) (op : Op)
    (h : StoreWF st) : StoreWF (applyOp hash st op) := by
  obtain ⟨h1, h2, h3, h4, h5, h6, h7⟩ := h
  cases op with
  | createUser d now => exact ⟨h1.set_fresh _, h2, h3, h4, h5, h6, h7⟩
  | createClient d now => exact ⟨h1, h2.set_fresh _, h3, h4, h5, h6.set_fresh _, h7⟩
  | updateClient id p =>
      simp only [applyOp, updateClient]
      cases hg : mapGet st.clients id with
      | none => exact ⟨h1, h2, h3, h4, h5, h6, h7⟩
      | some c => exact ⟨h1, h2.set_existing hg _, h3, h4, h5, h6, h7⟩
  | deleteClient id => exact ⟨h1, h2.del id, h3, h4, h5, h6, h7⟩
  | createMeasurement d now =>
      simp only [applyOp, createMeasurement]
      cases hg : mapGet st.clients d.clientId with
      | none => exact ⟨h1, h2, h3.set_fresh _, h4, h5, h6, h7⟩
      | some c => exact ⟨h1, h2, h3.set_fresh _, h4, h5, h6.set_fresh _, h7⟩
  | updateMeasurement id p =>
      simp only [applyOp, updateMeasurement]
      cases hg : mapGet st.measurements id with
      | none => exact ⟨h1, h2, h3, h4, h5, h6, h7⟩
      | some m => exact ⟨h1, h2, h3.set_existing hg _, h4, h5, h6, h7⟩
  | deleteMeasurement id => exact ⟨h1, h2, h3.del id, h4, h5, h6, h7⟩
  | createDietPlan d now => exact ⟨h1, h2, h3, h4.set_fresh _, h5, h6.set_fresh _, h7⟩
  | updateDietPlan id p =>
      simp only [applyOp, updateDietPlan]
      cases hg : mapGet st.dietPlans id with
      | none => exact ⟨h1, h2, h3, h4, h5, h6, h7⟩
      | some d => exact ⟨h1, h2, h3, h4.set_existing hg _, h5, h6, h7⟩
  | deleteDietPlan id => exact ⟨h1, h2, h3, h4.del id, h5, h6, h7⟩
  | createAppointment d now =>
      exact ⟨h1, h2, h3, h4, h5.set_fresh _, h6.set_fresh _, h7⟩
  | updateAppointment id p =>
      simp only [applyOp, updateAppointment]
      cases hg : mapGet st.appointments id with
      | none => exact ⟨h1, h2, h3, h4, h5, h6, h7⟩
      | some a => exact ⟨h1, h2, h3, h4, h5.set_existing hg _, h6, h7⟩
  | deleteAppointment id => exact ⟨h1, h2, h3, h4, h5.del id, h6, h7⟩
  | createActivity d now => exact ⟨h1, h2, h3, h4, h5, h6.set_fresh _, h7⟩
  | createBlogArticle d now => exact ⟨h1, h2, h3, h4, h5, h6, h7.set_fresh _⟩

/-- Well-formedness survives any history of store calls. -/
theorem runOps_WF (hash : String → String) (ops : List Op) :
    ∀ st : Store, StoreWF st → StoreWF (runOps hash st ops) := by
  induction ops with
  | nil => intro st h; exact h
  | cons op rest ih => intro st h; exact ih _ (applyOp_WF hash st op h)


theorem initialStore_WF (now : Nat) : StoreWF (initialStore now) := by
  refine ⟨?_, ?_, ?_, ?_, ?_, ?_, ?_⟩ <;>
    simp [initialStore, createBlogArticle, emptyStore, mapSet, MapWF]

/-! ## Helper lemmas about creation -/

theorem opt_getD_of_none {α : Type} (o : Option α) (x : α) (h : o = none) :
    o.getD x = x := by
  subst h; rfl

theorem createClient_clients (st : Store) (d : InsertClient) (now : Nat)
    (hb : ∀ p ∈ st.clients, p.1 < st.clientIdCounter) :
    (createClient st d now).2.clients =
      st.clients ++ [(st.clientIdCounter, (createClient st d now).1)] := by
  simp only [createClient, createActivity]
  exact mapSet_eq_append _ _ _ (fun p hp => Nat.ne_of_lt (hb p hp))

theorem createDietPlan_dietPlans (st : Store) (d : InsertDietPlan) (now : Nat)
    (hb : ∀ p ∈ st.dietPlans, p.1 < st.dietPlanIdCounter) :
    (createDietPlan st d now).2.dietPlans =
      st.dietPlans ++ [(st.dietPlanIdCounter, (createDietPlan st d now).1)] := by
  simp only [createDietPlan, createActivity]
  exact mapSet_eq_append _ _ _ (fun p hp => Nat.ne_of_lt (hb p hp))

/-! ## The claims -/

/-- C1, counterexample: the claim says `getAppointmentsForUser` returns
the matching appointments in insertion order, but the code sorts them by
appointment date ascending.  In `storeApptPair` the two appointments of
user 1 were created with dates 20 then 10, and the listing returns them
date-sorted, not in insertion order. -/
theorem claim_C1_counterexample :
    getAppointmentsForUser storeApptPair 1 ≠
      (mapValues storeApptPair.appointments).filter (fun a => a.userId == 1) := by
  decide

/-- C1, amended: for every user id, `getClientsForUser` and
`getDietPlansForUser` return exactly the stored entities whose `userId`
matches, in insertion order (a freshly created client or diet plan of
that user is appended at the end of the listing), while
`getAppointmentsForUser` returns exactly the matching appointments
sorted by appointment date ascending. -/
theorem claim_C1_owner_listings (st : Store) (uid : Nat) :
    getClientsForUser st uid =
      (mapValues st.clients).filter (fun c => c.userId == uid) ∧
    getDietPlansForUser st uid =
      (mapValues st.dietPlans).filter (fun d => d.userId == uid) ∧
    (getAppointmentsForUser st uid).Perm
      ((mapValues st.appointments).filter (fun a => a.userId == uid)) ∧
    (getAppointmentsForUser st uid).Sorted Appointment.byDateAsc ∧
    (∀ (d : InsertClient) (now : Nat),
      (∀ p ∈ st.clients, p.1 < st.clientIdCounter) → d.userId = uid →
        getClientsForUser (createClient st d now).2 uid =
          getClientsForUser st uid ++ [(createClient st d now).1]) ∧
    (∀ (d : InsertDietPlan) (now : Nat),
      (∀ p ∈ st.dietPlans, p.1 < st.dietPlanIdCounter) → d.userId = uid →
        getDietPlansForUser (createDietPlan st d now).2 uid =
          getDietPlansForUser st uid ++ [(createDietPlan st d now).1]) := by
  refine ⟨rfl, rfl, List.perm_insertionSort _ _, List.sorted_insertionSort _ _, ?_, ?_⟩
  · intro d now hb hu
    rw [getClientsForUser, mapValues, createClient_clients st d now hb,
      List.map_append, List.filter_append]
    simp [getClientsForUser, mapValues, createClient, hu]
  · intro d now hb hu
    rw [getDietPlansForUser, mapValues, createDietPlan_dietPlans st d now hb,
      List.map_append, List.filter_append]
    simp [getDietPlansForUser, mapValues, createDietPlan, hu]

/-- C1, witness: in the one-client store of user 1, creating a second
client for user 1 appends it at the end of that user's listing. -/
theorem claim_C1_owner_listings_witness :
    (∀ p ∈ storeClient1.clients, p.1 < storeClient1.clientIdCounter) ∧
    getClientsForUser (createClient storeClient1 (sampleClient 1 "Ali Kaya") 20).2 1 =
      getClientsForUser storeClient1 1 ++
        [(createClient storeClient1 (sampleClient 1 "Ali Kaya") 20).1] :=
  ⟨by decide,
   (claim_C1_owner_listings storeClient1 1).2.2.2.2.1 (sampleClient 1 "Ali Kaya") 20
     (by decide) rfl⟩

/-- C4: `getMeasurementsForClient` returns exactly the measurements of
the client sorted by `date` descending, and activities and articles are
likewise sorted descending by their timestamp field; concretely, three
measurements of one client created with dates 10 < 20 < 30 are listed
as dates [30, 20, 10]. -/
theorem claim_C4_reverse_chronological (st : Store) (cid uid : Nat) :
    (getMeasurementsForClient st cid).Sorted Measurement.byDateDesc ∧
    (getMeasurementsForClient st cid).Perm
      ((mapValues st.measurements).filter (fun m => m.clientId == cid)) ∧
    (getActivitiesForUser st uid none).Sorted Activity.byCreatedAtDesc ∧
    (getBlogArticles st none).Sorted BlogArticle.byPublishedAtDesc ∧
    (getMeasurementsForClient storeMeas3 1).map Measurement.date = [30, 20, 10] :=
  ⟨List.sorted_insertionSort _ _, List.perm_insertionSort _ _,
   List.sorted_insertionSort _ _, List.sorted_insertionSort _ _, by decide⟩

/-- C3: with no limit, or a zero or negative limit, `getActivitiesForUser`
and `getBlogArticles` return the whole newest-first result, and with a
positive limit they return exactly its first `limit` elements. -/
theorem claim_C3_limit (st : Store) (uid : Nat) :
    (getActivitiesForUser st uid none).Perm
      ((mapValues st.activities).filter (fun a => a.userId == uid)) ∧
    (getActivitiesForUser st uid none).Sorted Activity.byCreatedAtDesc ∧
    (∀ l : Int, l ≤ 0 →
      getActivitiesForUser st uid (some l) = getActivitiesForUser st uid none) ∧
    (∀ l : Int, 0 < l →
      getActivitiesForUser st uid (some l) =
        (getActivitiesForUser st uid none).take l.toNat) ∧
    (getBlogArticles st none).Perm (mapValues st.blogArticles) ∧
    (getBlogArticles st none).Sorted BlogArticle.byPublishedAtDesc ∧
    (∀ l : Int, l ≤ 0 → getBlogArticles st (some l) = getBlogArticles st none) ∧
    (∀ l : Int, 0 < l →
      getBlogArticles st (some l) = (getBlogArticles st none).take l.toNat) := by
  refine ⟨List.perm_insertionSort _ _, List.sorted_insertionSort _ _, ?_, ?_,
    List.perm_insertionSort _ _, List.sorted_insertionSort _ _, ?_, ?_⟩
  · intro l hl
    simp [getActivitiesForUser, Int.not_lt.2 hl]
  · intro l hl
    simp [getActivitiesForUser, hl]
  · intro l hl
    simp [getBlogArticles, Int.not_lt.2 hl]
  · intro l hl
    simp [getBlogArticles, hl]

/-- C3, witness: a user with 5 activities and limit 2 receives exactly
the first two elements of the newest-first listing, which are the two
activities most recently created (timestamps 15 and 14). -/
theorem claim_C3_limit_witness :
    ((0 : Int) < 2) ∧
    getActivitiesForUser storeActs5 1 (some 2) =
      (getActivitiesForUser storeActs5 1 none).take (Int.toNat 2) ∧
    (mapValues storeActs5.activities).length = 5 ∧
    (getActivitiesForUser storeActs5 1 (some 2)).map Activity.createdAt = [15, 14] :=
  ⟨by decide, (claim_C3_limit storeActs5 1).2.2.2.1 2 (by decide), by decide, by decide⟩

theorem createActivity_activities (st : Store) (a : InsertActivity) (now : Nat)
    (hb : ∀ p ∈ st.activities, p.1 < st.activityIdCounter) :
    (createActivity st a now).2.activities =
      st.activities ++ [(st.activityIdCounter, (createActivity st a now).1)] := by
  simp only [createActivity]
  exact mapSet_eq_append _ _ _ (fun p hp => Nat.ne_of_lt (hb p hp))

/-- C2, counterexample: the claim says every successful creation adds
exactly one Activity and that an unresolved client id degrades the
description to a placeholder; but `createMeasurement` with a dangling
client id (99 in a store whose only client is 1) succeeds while adding
no Activity at all. -/
theorem claim_C2_counterexample :
    (createMeasurement storeClient1 (sampleMeasurement 99 7) 8).2.activities =
      storeClient1.activities ∧
    (createMeasurement storeClient1 (sampleMeasurement 99 7) 8).2.measurements.length =
      storeClient1.measurements.length + 1 := by
  constructor <;> decide

/-- C2, amended: creating a Client, DietPlan or Appointment always
appends exactly one Activity whose description interpolates the client's
display name — the placeholder name `"Bilinmeyen Danışan"` when the
referenced client id does not resolve — and the creation succeeds either
way; creating a Measurement appends exactly one such Activity when the
referenced client exists, and when it does not, the measurement is still
created but no Activity is recorded. -/
theorem claim_C2_activity_recorder (st : Store) (now : Nat)
    (hact : ∀ p ∈ st.activities, p.1 < st.activityIdCounter) :
    (∀ d : InsertClient,
      (createClient st d now).2.activities = st.activities ++
        [(st.activityIdCounter,
          { id := st.activityIdCounter, userId := d.userId
            clientId := some st.clientIdCounter, type := "client"
            description := "Yeni danışan eklendi: " ++ d.fullName
            createdAt := now })]) ∧
    (∀ (d : InsertMeasurement) (c : Client), mapGet st.clients d.clientId = some c →
      (createMeasurement st d now).2.activities = st.activities ++
        [(st.activityIdCounter,
          { id := st.activityIdCounter, userId := c.userId
            clientId := some d.clientId, type := "measurement"
            description := "Yeni ölçüm kaydedildi: " ++ c.fullName ++ " için"
            createdAt := now })]) ∧
    (∀ d : InsertMeasurement, mapGet st.clients d.clientId = none →
      (createMeasurement st d now).2.activities = st.activities ∧
      (createMeasurement st d now).2.measurements =
        mapSet st.measurements st.measurementIdCounter
          (createMeasurement st d now).1) ∧
    (∀ (d : InsertDietPlan) (c : Client), mapGet st.clients d.clientId = some c →
      (createDietPlan st d now).2.activities = st.activities ++
        [(st.activityIdCounter,
          { id := st.activityIdCounter, userId := d.userId
            clientId := some d.clientId, type := "diet_plan"
            description := "Yeni diyet planı oluşturuldu: " ++ c.fullName ++ " için "
              ++ d.name
            createdAt := now })]) ∧
    (∀ d : InsertDietPlan, mapGet st.clients d.clientId = none →
      (createDietPlan st d now).2.activities = st.activities ++
        [(st.activityIdCounter,
          { id := st.activityIdCounter, userId := d.userId
            clientId := some d.clientId, type := "diet_plan"
            description := "Yeni diyet planı oluşturuldu: Bilinmeyen Danışan için "
              ++ d.name
            createdAt := now })] ∧
      (createDietPlan st d now).2.dietPlans =
        mapSet st.dietPlans st.dietPlanIdCounter (createDietPlan st d now).1) ∧
    (∀ (d : InsertAppointment) (c : Client), mapGet st.clients d.clientId = some c →
      (createAppointment st d now).2.activities = st.activities ++
        [(st.activityIdCounter,
          { id := st.activityIdCounter, userId := d.userId
            clientId := some d.clientId, type := "appointment"
            description := "Yeni randevu oluşturuldu: " ++ c.fullName ++ " ile "
              ++ trDateString d.date
            createdAt := now })]) ∧
    (∀ d : InsertAppointment, mapGet st.clients d.clientId = none →
      (createAppointment st d now).2.activities = st.activities ++
        [(st.activityIdCounter,
          { id := st.activityIdCounter, userId := d.userId
            clientId := some d.clientId, type := "appointment"
            description := "Yeni randevu oluşturuldu: Bilinmeyen Danışan ile "
              ++ trDateString d.date
            createdAt := now })] ∧
      (createAppointment st d now).2.appointments =
        mapSet st.appointments st.appointmentIdCounter
          (createAppointment st d now).1) := by
  refine ⟨?_, ?_, ?_, ?_, ?_, ?_, ?_⟩
  · intro d
    simp only [createClient]
    rw [createActivity_activities]
    · simp [createActivity]
    · simpa using hact
  · intro d c hc
    simp only [createMeasurement]
    simp only [hc]
    rw [createActivity_activities]
    · simp [createActivity]
    · simpa using hact
  · intro d hc
    simp only [createMeasurement]
    simp only [hc]
    exact ⟨trivial, trivial⟩
  · intro d c hc
    simp only [createDietPlan]
    rw [createActivity_activities]
    · simp [createActivity, hc]
    · simpa using hact
  · intro d hc
    simp only [createDietPlan]
    rw [createActivity_activities]
    · simp [createActivity, hc]
      rfl
    · simpa using hact
  · intro d c hc
    simp only [createAppointment]
    rw [createActivity_activities]
    · simp [createActivity, hc]
    · simpa using hact
  · intro d hc
    simp only [createAppointment]
    rw [createActivity_activities]
    · simp [createActivity, hc]
      rfl
    · simpa using hact

/-- C2, witness: in the one-client store, a diet plan created for the
dangling client id 99 still succeeds and records exactly one Activity
whose description uses the placeholder name. -/
theorem claim_C2_activity_recorder_witness :
    (∀ p ∈ storeClient1.activities, p.1 < storeClient1.activityIdCounter) ∧
    mapGet storeClient1.clients 99 = none ∧
    (createDietPlan storeClient1 (sampleDietPlan 1 99 "Kilo Verme Diyeti") 50).2.activities =
      storeClient1.activities ++
        [(storeClient1.activityIdCounter,
          { id := storeClient1.activityIdCounter, userId := 1
            clientId := some 99, type := "diet_plan"
            description :=
              "Yeni diyet planı oluşturuldu: Bilinmeyen Danışan için Kilo Verme Diyeti"
            createdAt := 50 })] :=
  ⟨by decide, by decide,
   ((claim_C2_activity_recorder storeClient1 50 (by decide)).2.2.2.2.1
      (sampleDietPlan 1 99 "Kilo Verme Diyeti") (by decide)).1⟩

/-- C5: along any history of store calls and from any starting state,
the identifiers assigned to created entities of each type form a
strictly increasing sequence — hence all distinct, never reused even
after deletions — and every store reachable from the constructor state
keeps all its map keys unique and below the corresponding counter. -/
theorem claim_C5_identifiers (hash : String → String) (ops : List Op) (st : Store) :
    List.Pairwise (· < ·) (opTrace hash (userIdsAssigned hash) st ops) ∧
    List.Pairwise (· < ·) (opTrace hash clientIdsAssigned st ops) ∧
    List.Pairwise (· < ·) (opTrace hash measurementIdsAssigned st ops) ∧
    List.Pairwise (· < ·) (opTrace hash dietPlanIdsAssigned st ops) ∧
    List.Pairwise (· < ·) (opTrace hash appointmentIdsAssigned st ops) ∧
    List.Pairwise (· < ·) (opTrace hash activityIdsAssigned st ops) ∧
    List.Pairwise (· < ·) (opTrace hash blogArticleIdsAssigned st ops) ∧
    (opTrace hash (userIdsAssigned hash) st ops).Nodup ∧
    (opTrace hash clientIdsAssigned st ops).Nodup ∧
    (opTrace hash measurementIdsAssigned st ops).Nodup ∧
    (opTrace hash dietPlanIdsAssigned st ops).Nodup ∧
    (opTrace hash appointmentIdsAssigned st ops).Nodup ∧
    (opTrace hash activityIdsAssigned st ops).Nodup ∧
    (opTrace hash blogArticleIdsAssigned st ops).Nodup ∧
    (∀ now : Nat, StoreWF (runOps hash (initialStore now) ops)) :=
  ⟨userIds_strictMono hash ops st, clientIds_strictMono hash ops st,
   measurementIds_strictMono hash ops st, dietPlanIds_strictMono hash ops st,
   appointmentIds_strictMono hash ops st, activityIds_strictMono hash ops st,
   blogArticleIds_strictMono hash ops st,
   (userIds_strictMono hash ops st).imp (fun h => Nat.ne_of_lt h),
   (clientIds_strictMono hash ops st).imp (fun h => Nat.ne_of_lt h),
   (measurementIds_strictMono hash ops st).imp (fun h => Nat.ne_of_lt h),
   (dietPlanIds_strictMono hash ops st).imp (fun h => Nat.ne_of_lt h),
   (appointmentIds_strictMono hash ops st).imp (fun h => Nat.ne_of_lt h),
   (activityIds_strictMono hash ops st).imp (fun h => Nat.ne_of_lt h),
   (blogArticleIds_strictMono hash ops st).imp (fun h => Nat.ne_of_lt h),
   fun now => runOps_WF hash ops _ (initialStore_WF now)⟩

/-- C6: reading, updating or deleting a client by id yields 404 when the
id is absent, a 403 carrying no client data (and distinct from the 404
outcome) when the client belongs to another user, and only with a
matching owner is the client returned, merged or removed. -/
theorem claim_C6_client_ownership (st : Store) (principal id : Nat) (p : ClientPatch) :
    (getClient st id = none →
      getClientRoute st principal id = RouteResult.err 404 "Danışan bulunamadı" ∧
      putClientRoute st principal id p =
        (RouteResult.err 404 "Danışan bulunamadı", st) ∧
      deleteClientRoute st principal id =
        (RouteResult.err 404 "Danışan bulunamadı", st)) ∧
    (∀ c : Client, getClient st id = some c → c.userId ≠ principal →
      getClientRoute st principal id =
        RouteResult.err 403 "Bu danışana erişim izniniz yok" ∧
      putClientRoute st principal id p =
        (RouteResult.err 403 "Bu danışanı güncelleme izniniz yok", st) ∧
      deleteClientRoute st principal id =
        (RouteResult.err 403 "Bu danışanı silme izniniz yok", st) ∧
      getClientRoute st principal id ≠ RouteResult.err 404 "Danışan bulunamadı") ∧
    (∀ c : Client, getClient st id = some c → c.userId = principal →
      getClientRoute st principal id = RouteResult.ok 200 c ∧
      putClientRoute st principal id p =
        (RouteResult.ok 200 (some (applyClientPatch c p)),
         { st with clients := mapSet st.clients id (applyClientPatch c p) }) ∧
      deleteClientRoute st principal id =
        (RouteResult.ok 204 (), { st with clients := mapDelete st.clients id })) := by
  refine ⟨?_, ?_, ?_⟩
  · intro h
    simp [getClientRoute, putClientRoute, deleteClientRoute, h]
  · intro c h hne
    simp [getClientRoute, putClientRoute, deleteClientRoute, h, hne]
  · intro c h he
    have h' : mapGet st.clients id = some c := h
    simp [getClientRoute, putClientRoute, deleteClientRoute, updateClient,
      deleteClient, h, h', he]

/-- C6, witness: the client of user 1 is served to its owner and denied
with a 403 (not a 404) to principal 2. -/
theorem claim_C6_client_ownership_witness :
    getClient storeClient1 1 = some client1 ∧ client1.userId ≠ 2 ∧
    getClientRoute storeClient1 2 1 =
      RouteResult.err 403 "Bu danışana erişim izniniz yok" ∧
    getClientRoute storeClient1 1 1 = RouteResult.ok 200 client1 :=
  ⟨by decide, by decide,
   ((claim_C6_client_ownership storeClient1 2 1 {}).2.1 client1 (by decide)
     (by decide)).1,
   ((claim_C6_client_ownership storeClient1 1 1 {}).2.2 client1 (by decide)
     (by decide)).1⟩

/-- C7: a login with an existing username and a rejected password
returns the same 401 body as a login with a non-existent username, so
the two outcomes are indistinguishable to the caller. -/
theorem claim_C7_login_indistinguishable (cmp : String → String → Bool)
    (st st' : Store) (u p u' p' : String) (user : User)
    (hu : getUserByUsername st u = some user)
    (hp : cmp p user.password = false)
    (hn : getUserByUsername st' u' = none) :
    loginHandler cmp st u p = AuthResult.err 401 "Geçersiz kullanıcı adı veya şifre" ∧
    loginHandler cmp st' u' p' =
      AuthResult.err 401 "Geçersiz kullanıcı adı veya şifre" ∧
    loginHandler cmp st u p = loginHandler cmp st' u' p' := by
  have h1 : loginHandler cmp st u p =
      AuthResult.err 401 "Geçersiz kullanıcı adı veya şifre" := by
    simp [loginHandler, hu, hp]
  have h2 : loginHandler cmp st' u' p' =
      AuthResult.err 401 "Geçersiz kullanıcı adı veya şifre" := by
    simp [loginHandler, hn]
  exact ⟨h1, h2, h1.trans h2.symm⟩

/-- C7, witness: with the all-rejecting comparison, logging in as the
stored user "demo" with a wrong password is indistinguishable from
logging in as the unknown user "ghost". -/
theorem claim_C7_login_indistinguishable_witness :
    getUserByUsername storeUser1 "demo" = some user1 ∧
    cmp0 "wrong" user1.password = false ∧
    getUserByUsername emptyStore "ghost" = none ∧
    loginHandler cmp0 storeUser1 "demo" "wrong" =
      loginHandler cmp0 emptyStore "ghost" "x" :=
  ⟨by decide, rfl, rfl,
   (claim_C7_login_indistinguishable cmp0 storeUser1 emptyStore "demo" "wrong"
     "ghost" "x" user1 (by decide) rfl rfl).2.2⟩

/-- C8: registering a username that is already stored is rejected with a
400 conflict body and leaves the store — in particular its user map —
completely unchanged. -/
theorem claim_C8_duplicate_username (hash : String → String) (st : Store)
    (d : InsertUser) (now : Nat) (u : User)
    (h : getUserByUsername st d.username = some u) :
    registerHandler hash st d now =
      (AuthResult.err 400 "Bu kullanıcı adı zaten kullanılıyor", st) := by
  simp [registerHandler, h]

/-- C8, witness: re-registering "demo" in the store that already holds
that username is rejected and changes nothing. -/
theorem claim_C8_duplicate_username_witness :
    getUserByUsername storeUser1 (sampleUser "demo").username = some user1 ∧
    registerHandler hash0 storeUser1 (sampleUser "demo") 9 =
      (AuthResult.err 400 "Bu kullanıcı adı zaten kullanılıyor", storeUser1) :=
  ⟨by decide,
   claim_C8_duplicate_username hash0 storeUser1 (sampleUser "demo") 9 user1
     (by decide)⟩

/-- C9: deleting a client removes exactly that entry from the client map
and every other map — measurements, diet plans, appointments, users,
activities, articles — is untouched, so dependent entities of the
deleted client are still listed afterwards (no cascade delete). -/
theorem claim_C9_no_cascade (st : Store) (id : Nat)
    (h : (st.clients.map Prod.fst).Nodup) :
    (deleteClient st id).2.measurements = st.measurements ∧
    (deleteClient st id).2.dietPlans = st.dietPlans ∧
    (deleteClient st id).2.appointments = st.appointments ∧
    (deleteClient st id).2.users = st.users ∧
    (deleteClient st id).2.activities = st.activities ∧
    (deleteClient st id).2.blogArticles = st.blogArticles ∧
    getClient (deleteClient st id).2 id = none ∧
    (∀ k, k ≠ id → getClient (deleteClient st id).2 k = getClient st k) ∧
    getMeasurementsForClient (deleteClient st id).2 id =
      getMeasurementsForClient st id ∧
    getDietPlansForClient (deleteClient st id).2 id = getDietPlansForClient st id ∧
    getAppointmentsForClient (deleteClient st id).2 id =
      getAppointmentsForClient st id := by
  refine ⟨rfl, rfl, rfl, rfl, rfl, rfl, ?_, ?_, rfl, rfl, rfl⟩
  · exact mapGet_mapDelete_self st.clients id h
  · intro k hk
    exact mapGet_mapDelete_ne st.clients (Ne.symm hk)

/-- C9, witness: deleting client 1 from the store holding its
measurement, diet plan and appointment leaves all three dependent maps
unchanged while the client itself is gone. -/
theorem claim_C9_no_cascade_witness :
    (storeFull.clients.map Prod.fst).Nodup ∧
    getClient (deleteClient storeFull 1).2 1 = none ∧
    (deleteClient storeFull 1).2.measurements = storeFull.measurements ∧
    (deleteClient storeFull 1).2.dietPlans = storeFull.dietPlans :=
  ⟨by decide,
   (claim_C9_no_cascade storeFull 1 (by decide)).2.2.2.2.2.2.1,
   (claim_C9_no_cascade storeFull 1 (by decide)).1,
   (claim_C9_no_cascade storeFull 1 (by decide)).2.1⟩

/-- C10: each update operation returns the absence signal and leaves the
whole store unchanged when the id is absent; when it is present, the
merged entity keeps its id (and `createdAt` where the entity has one),
every field absent from the partial keeps its previous value, and every
other entry of every map is unchanged. -/
theorem claim_C10_partial_update (st : Store) (id : Nat) (pc : ClientPatch)
    (pm : MeasurementPatch) (pd : DietPlanPatch) (pa : AppointmentPatch) :
    (mapGet st.clients id = none → updateClient st id pc = (none, st)) ∧
    (∀ c : Client, mapGet st.clients id = some c →
      updateClient st id pc =
        (some (applyClientPatch c pc),
         { st with clients := mapSet st.clients id (applyClientPatch c pc) }) ∧
      (applyClientPatch c pc).id = c.id ∧
      (applyClientPatch c pc).createdAt = c.createdAt ∧
      (pc.userId = none → (applyClientPatch c pc).userId = c.userId) ∧
      (pc.fullName = none → (applyClientPatch c pc).fullName = c.fullName) ∧
      (pc.email = none → (applyClientPatch c pc).email = c.email) ∧
      (pc.phone = none → (applyClientPatch c pc).phone = c.phone) ∧
      (pc.birthDate = none → (applyClientPatch c pc).birthDate = c.birthDate) ∧
      (pc.gender = none → (applyClientPatch c pc).gender = c.gender) ∧
      (pc.profileImage = none →
        (applyClientPatch c pc).profileImage = c.profileImage) ∧
      (pc.height = none → (applyClientPatch c pc).height = c.height) ∧
      (pc.startingWeight = none →
        (applyClientPatch c pc).startingWeight = c.startingWeight) ∧
      (pc.targetWeight = none →
        (applyClientPatch c pc).targetWeight = c.targetWeight) ∧
      (pc.activityLevel = none →
        (applyClientPatch c pc).activityLevel = c.activityLevel) ∧
      (pc.medicalHistory = none →
        (applyClientPatch c pc).medicalHistory = c.medicalHistory) ∧
      (pc.dietaryRestrictions = none →
        (applyClientPatch c pc).dietaryRestrictions = c.dietaryRestrictions) ∧
      (pc.telegramChatId = none →
        (applyClientPatch c pc).telegramChatId = c.telegramChatId) ∧
      (pc.notes = none → (applyClientPatch c pc).notes = c.notes) ∧
      (pc.isActive = none → (applyClientPatch c pc).isActive = c.isActive) ∧
      (∀ k, k ≠ id →
        mapGet (mapSet st.clients id (applyClientPatch c pc)) k =
          mapGet st.clients k)) ∧
    (mapGet st.measurements id = none → updateMeasurement st id pm = (none, st)) ∧
    (∀ m : Measurement, mapGet st.measurements id = some m →
      updateMeasurement st id pm =
        (some (applyMeasurementPatch m pm),
         { st with measurements :=
             mapSet st.measurements id (applyMeasurementPatch m pm) }) ∧
      (applyMeasurementPatch m pm).id = m.id ∧
      (pm.clientId = none → (applyMeasurementPatch m pm).clientId = m.clientId) ∧
      (pm.date = none → (applyMeasurementPatch m pm).date = m.date) ∧
      (pm.weight = none → (applyMeasurementPatch m pm).weight = m.weight) ∧
      (pm.chest = none → (applyMeasurementPatch m pm).chest = m.chest) ∧
      (pm.waist = none → (applyMeasurementPatch m pm).waist = m.waist) ∧
      (pm.hip = none → (applyMeasurementPatch m pm).hip = m.hip) ∧
      (pm.arm = none → (applyMeasurementPatch m pm).arm = m.arm) ∧
      (pm.thigh = none → (applyMeasurementPatch m pm).thigh = m.thigh) ∧
      (pm.bodyFatPercentage = none →
        (applyMeasurementPatch m pm).bodyFatPercentage = m.bodyFatPercentage) ∧
      (pm.notes = none → (applyMeasurementPatch m pm).notes = m.notes) ∧
      (∀ k, k ≠ id →
        mapGet (mapSet st.measurements id (applyMeasurementPatch m pm)) k =
          mapGet st.measurements k)) ∧
    (mapGet st.dietPlans id = none → updateDietPlan st id pd = (none, st)) ∧
    (∀ d : DietPlan, mapGet st.dietPlans id = some d →
      updateDietPlan st id pd =
        (some (applyDietPlanPatch d pd),
         { st with dietPlans := mapSet st.dietPlans id (applyDietPlanPatch d pd) }) ∧
      (applyDietPlanPatch d pd).id = d.id ∧
      (applyDietPlanPatch d pd).createdAt = d.createdAt ∧
      (pd.userId = none → (applyDietPlanPatch d pd).userId = d.userId) ∧
      (pd.clientId = none → (applyDietPlanPatch d pd).clientId = d.clientId) ∧
      (pd.name = none → (applyDietPlanPatch d pd).name = d.name) ∧
      (pd.description = none →
        (applyDietPlanPatch d pd).description = d.description) ∧
      (pd.startDate = none → (applyDietPlanPatch d pd).startDate = d.startDate) ∧
      (pd.endDate = none → (applyDietPlanPatch d pd).endDate = d.endDate) ∧
      (pd.dailyCalories = none →
        (applyDietPlanPatch d pd).dailyCalories = d.dailyCalories) ∧
      (pd.macroProtein = none →
        (applyDietPlanPatch d pd).macroProtein = d.macroProtein) ∧
      (pd.macroCarbs = none → (applyDietPlanPatch d pd).macroCarbs = d.macroCarbs) ∧
      (pd.macroFat = none → (applyDietPlanPatch d pd).macroFat = d.macroFat) ∧
      (pd.meals = none → (applyDietPlanPatch d pd).meals = d.meals) ∧
      (pd.isActive = none → (applyDietPlanPatch d pd).isActive = d.isActive) ∧
      (∀ k, k ≠ id →
        mapGet (mapSet st.dietPlans id (applyDietPlanPatch d pd)) k =
          mapGet st.dietPlans k)) ∧
    (mapGet st.appointments id = none → updateAppointment st id pa = (none, st)) ∧
    (∀ a : Appointment, mapGet st.appointments id = some a →
      updateAppointment st id pa =
        (some (applyAppointmentPatch a pa),
         { st with appointments :=
             mapSet st.appointments id (applyAppointmentPatch a pa) }) ∧
      (applyAppointmentPatch a pa).id = a.id ∧
      (applyAppointmentPatch a pa).createdAt = a.createdAt ∧
      (pa.userId = none → (applyAppointmentPatch a pa).userId = a.userId) ∧
      (pa.clientId = none → (applyAppointmentPatch a pa).clientId = a.clientId) ∧
      (pa.date = none → (applyAppointmentPatch a pa).date = a.date) ∧
      (pa.duration = none → (applyAppointmentPatch a pa).duration = a.duration) ∧
      (pa.type = none → (applyAppointmentPatch a pa).type = a.type) ∧
      (pa.notes = none → (applyAppointmentPatch a pa).notes = a.notes) ∧
      (pa.status = none → (applyAppointmentPatch a pa).status = a.status) ∧
      (∀ k, k ≠ id →
        mapGet (mapSet st.appointments id (applyAppointmentPatch a pa)) k =
          mapGet st.appointments k)) := by
  refine ⟨?_, ?_, ?_, ?_, ?_, ?_, ?_, ?_⟩
  · intro h
    simp [updateClient, h]
  · intro c h
    exact ⟨by simp [updateClient, h], rfl, rfl,
      fun h' => opt_getD_of_none _ _ h', fun h' => opt_getD_of_none _ _ h',
      fun h' => opt_getD_of_none _ _ h', fun h' => opt_getD_of_none _ _ h',
      fun h' => opt_getD_of_none _ _ h', fun h' => opt_getD_of_none _ _ h',
      fun h' => opt_getD_of_none _ _ h', fun h' => opt_getD_of_none _ _ h',
      fun h' => opt_getD_of_none _ _ h', fun h' => opt_getD_of_none _ _ h',
      fun h' => opt_getD_of_none _ _ h', fun h' => opt_getD_of_none _ _ h',
      fun h' => opt_getD_of_none _ _ h', fun h' => opt_getD_of_none _ _ h',
      fun h' => opt_getD_of_none _ _ h', fun h' => opt_getD_of_none _ _ h',
      fun k hk => mapGet_mapSet_ne st.clients _ (Ne.symm hk)⟩
  · intro h
    simp [updateMeasurement, h]
  · intro m h
    exact ⟨by simp [updateMeasurement, h], rfl,
      fun h' => opt_getD_of_none _ _ h', fun h' => opt_getD_of_none _ _ h',
      fun h' => opt_getD_of_none _ _ h', fun h' => opt_getD_of_none _ _ h',
      fun h' => opt_getD_of_none _ _ h', fun h' => opt_getD_of_none _ _ h',
      fun h' => opt_getD_of_none _ _ h', fun h' => opt_getD_of_none _ _ h',
      fun h' => opt_getD_of_none _ _ h', fun h' => opt_getD_of_none _ _ h',
      fun k hk => mapGet_mapSet_ne st.measurements _ (Ne.symm hk)⟩
  · intro h
    simp [updateDietPlan, h]
  · intro d h
    exact ⟨by simp [updateDietPlan, h], rfl, rfl,
      fun h' => opt_getD_of_none _ _ h', fun h' => opt_getD_of_none _ _ h',
      fun h' => opt_getD_of_none _ _ h', fun h' => opt_getD_of_none _ _ h',
      fun h' => opt_getD_of_none _ _ h', fun h' => opt_getD_of_none _ _ h',
      fun h' => opt_getD_of_none _ _ h', fun h' => opt_getD_of_none _ _ h',
      fun h' => opt_getD_of_none _ _ h', fun h' => opt_getD_of_none _ _ h',
      fun h' => opt_getD_of_none _ _ h', fun h' => opt_getD_of_none _ _ h',
      fun k hk => mapGet_mapSet_ne st.dietPlans _ (Ne.symm hk)⟩
  · intro h
    simp [updateAppointment, h]
  · intro a h
    exact ⟨by simp [updateAppointment, h], rfl, rfl,
      fun h' => opt_getD_of_none _ _ h', fun h' => opt_getD_of_none _ _ h',
      fun h' => opt_getD_of_none _ _ h', fun h' => opt_getD_of_none _ _ h',
      fun h' => opt_getD_of_none _ _ h', fun h' => opt_getD_of_none _ _ h',
      fun h' => opt_getD_of_none _ _ h',
      fun k hk => mapGet_mapSet_ne st.appointments _ (Ne.symm hk)⟩

/-- C10, witness: patching only the full name of stored client 1 keeps
its id and email and signals the update with the merged record. -/
theorem claim_C10_partial_update_witness :
    mapGet storeClient1.clients 1 = some client1 ∧
    (updateClient storeClient1 1 { fullName := some "Ali" }).1 =
      some (applyClientPatch client1 { fullName := some "Ali" }) ∧
    (applyClientPatch client1 { fullName := some "Ali" }).id = client1.id ∧
    (applyClientPatch client1 { fullName := some "Ali" }).email = client1.email :=
  ⟨by decide,
   congrArg Prod.fst
     (((claim_C10_partial_update storeClient1 1 { fullName := some "Ali" } {} {} {}).2.1
       client1 (by decide)).1),
   ((claim_C10_partial_update storeClient1 1 { fullName := some "Ali" } {} {} {}).2.1
     client1 (by decide)).2.1,
   ((claim_C10_partial_update storeClient1 1 { fullName := some "Ali" } {} {} {}).2.1
     client1 (by decide)).2.2.2.2.2.1 rfl⟩

/-- C4, witness: the reverse-chronological guarantee instantiated at the
three-measurement store. -/
theorem claim_C4_reverse_chronological_witness :
    (getMeasurementsForClient storeMeas3 1).Sorted Measurement.byDateDesc ∧
    (getMeasurementsForClient storeMeas3 1).map Measurement.date = [30, 20, 10] :=
  ⟨(claim_C4_reverse_chronological storeMeas3 1 1).1,
   (claim_C4_reverse_chronological storeMeas3 1 1).2.2.2.2⟩

/-- C5, witness: a concrete history that creates a client, deletes it,
and creates another client assigns strictly increasing client ids. -/
theorem claim_C5_identifiers_witness :
    List.Pairwise (· < ·)
      (opTrace hash0 clientIdsAssigned emptyStore
        [Op.createClient (sampleClient 1 "A") 1, Op.deleteClient 1,
         Op.createClient (sampleClient 1 "B") 2]) :=
  (claim_C5_identifiers hash0
    [Op.createClient (sampleClient 1 "A") 1, Op.deleteClient 1,
     Op.createClient (sampleClient 1 "B") 2] emptyStore).2.1
